import Mathlib

/-!
Verification of the quip-mcp response-normalization core.

This file shallowly embeds the Go sources of `pkg/quip/client.go` and
`pkg/server/server.go`: JSON response bodies become an explicit `JValue`
tree, Go's `encoding/json` unmarshalling into the concrete target structs
becomes `Option`-valued decoders with Go's semantics (unknown keys ignored,
absent keys and JSON `null` leave the zero value, type mismatches fail the
whole decode, a later duplicate key wins), and each client operation's
body-normalization logic becomes a pure function from `JValue` to
`Except String α`.  Machine integers (`int64`) are modelled as `Int` with
Go's truncating division `Int.div`.
-/

namespace QuipMCP

/-- JSON values, the parse trees of response bodies. -/
inductive JValue where
  | null : JValue
  | bool (b : Bool) : JValue
  | num (n : Int) : JValue
  | str (s : String) : JValue
  | arr (xs : List JValue) : JValue
  | obj (fields : List (String × JValue)) : JValue
deriving Inhabited

/-! ## Decimal rendering: embedding of Go `strconv.FormatInt(x, 10)` -/

/-- The ASCII digit character for `n < 10`. -/
def digitChar (n : Nat) : Char := Char.ofNat (48 + n)

/-- Decimal digits of a natural number, most significant first.
The first argument is structural fuel (`n + 1` suffices). -/
def natDigitsAux : Nat → Nat → List Char
  | 0, _ => []
  | fuel + 1, n =>
    if n < 10 then [digitChar n]
    else natDigitsAux fuel (n / 10) ++ [digitChar (n % 10)]

/-- Decimal digits of a natural number, most significant first. -/
def natDigits (n : Nat) : List Char := natDigitsAux (n + 1) n

/-- Embedding of Go `strconv.FormatInt(x, 10)`: decimal rendering of a
signed integer. -/
def formatInt (x : Int) : String :=
  if x < 0 then String.mk ('-' :: natDigits x.natAbs)
  else String.mk (natDigits x.toNat)

/-! ## Canonical entities (structs of `pkg/quip/client.go`) -/

/-- `Document` struct: a Quip document (JSON tags as in the source).
`accessLevels` models the Go field `AccessLevels map[string]interface{}`. -/
structure Document where
  id : String := ""
  type : String := ""
  title : String := ""
  created : Int := 0
  updated : Int := 0
  authorId : String := ""
  html : String := ""
  link : String := ""
  accessLevel : String := ""
  isTemplate : Bool := false
  sharedFolderId : String := ""
  threadId : String := ""
  userIsFollowing : Bool := false
  expandedUserIds : List String := []
  accessLevels : List (String × JValue) := []
deriving Inhabited

/-- `User` struct: a Quip user. -/
structure User where
  id : String := ""
  name : String := ""
  email : String := ""
  affinity : Float := 0
  desktop : Bool := false
  created : Int := 0
  updated : Int := 0
  url : String := ""
  profilePic : String := ""
  emails : List String := []
  chatOnly : Bool := false
deriving Inhabited

/-- `SearchResult` struct: search results handed back to callers. -/
structure SearchResult where
  documents : List Document
  users : List User
  nextCursor : String := ""
deriving Inhabited

/-- `SearchResponse` struct: one `\x7b"thread": ...\x7d` wrapper entry of the
search (and recent-threads fallback) response array. -/
structure SearchResponse where
  thread : Document := {}
deriving Inhabited

/-- `RecentThreadData` struct: the sideband-HTML wrapper envelope
`\x7b"thread": ..., "html": ..., ...\x7d`. -/
structure RecentThreadData where
  thread : Document := {}
  userIds : List String := []
  sharedFolderIds : List String := []
  expandedUserIds : List String := []
  invitedUserEmails : List String := []
  accessLevels : List (String × List (String × String)) := []
  html : String := ""
deriving Inhabited

/-! ## Go `encoding/json` unmarshalling into those structs -/

/-- Look a key up in a JSON object's field list.  Go keeps the LAST
occurrence of a duplicate key, hence the fold. -/
def jLookup (fields : List (String × JValue)) (key : String) : Option JValue :=
  fields.foldl (fun acc p => if p.1 = key then some p.2 else acc) none

/-- Unmarshal a `string` struct field: absent or `null` leaves the zero
value `""`; a non-string JSON value is a type error. -/
def decodeStringField (fields : List (String × JValue)) (key : String) : Option String :=
  match jLookup fields key with
  | none => some ""
  | some JValue.null => some ""
  | some (JValue.str s) => some s
  | some _ => none

/-- Unmarshal an `int64` struct field. -/
def decodeIntField (fields : List (String × JValue)) (key : String) : Option Int :=
  match jLookup fields key with
  | none => some 0
  | some JValue.null => some 0
  | some (JValue.num n) => some n
  | some _ => none

/-- Unmarshal a `bool` struct field. -/
def decodeBoolField (fields : List (String × JValue)) (key : String) : Option Bool :=
  match jLookup fields key with
  | none => some false
  | some JValue.null => some false
  | some (JValue.bool b) => some b
  | some _ => none

/-- Unmarshal one element of a `[]string`: `null` becomes `""`. -/
def decodeStringElem : JValue → Option String
  | JValue.null => some ""
  | JValue.str s => some s
  | _ => none

/-- Unmarshal a `[]string` struct field. -/
def decodeStringListField (fields : List (String × JValue)) (key : String) : Option (List String) :=
  match jLookup fields key with
  | none => some []
  | some JValue.null => some []
  | some (JValue.arr xs) => xs.mapM decodeStringElem
  | some _ => none

/-- Unmarshal a `map[string]interface\x7b\x7d` struct field: any JSON object is
accepted as-is. -/
def decodeJObjField (fields : List (String × JValue)) (key : String) :
    Option (List (String × JValue)) :=
  match jLookup fields key with
  | none => some []
  | some JValue.null => some []
  | some (JValue.obj fs) => some fs
  | some _ => none

/-- Unmarshal a `map[string]string` value. -/
def decodeStringPairs : JValue → Option (List (String × String))
  | JValue.null => some []
  | JValue.obj fs => fs.mapM (fun p => (decodeStringElem p.2).map (fun s => (p.1, s)))
  | _ => none

/-- Unmarshal a `map[string]map[string]string` struct field
(`RecentThreadData.AccessLevels`). -/
def decodeStringMapMapField (fields : List (String × JValue)) (key : String) :
    Option (List (String × List (String × String))) :=
  match jLookup fields key with
  | none => some []
  | some JValue.null => some []
  | some (JValue.obj fs) => fs.mapM (fun p => (decodeStringPairs p.2).map (fun m => (p.1, m)))
  | some _ => none

/-- Go `json.Unmarshal` into a `Document`.  `null` leaves the whole struct
zero-valued without error; any non-object other than `null` is a type
error; inside an object, unknown keys are ignored and each known key must
match its field type. -/
def decodeDocument : JValue → Option Document
  | JValue.null => some {}
  | JValue.obj fields => do
    let id ← decodeStringField fields "id"
    let ty ← decodeStringField fields "type"
    let title ← decodeStringField fields "title"
    let created ← decodeIntField fields "created_usec"
    let updated ← decodeIntField fields "updated_usec"
    let authorId ← decodeStringField fields "author_id"
    let html ← decodeStringField fields "html"
    let link ← decodeStringField fields "link"
    let accessLevel ← decodeStringField fields "access_level"
    let isTemplate ← decodeBoolField fields "is_template"
    let sharedFolderId ← decodeStringField fields "shared_folder_id"
    let threadId ← decodeStringField fields "thread_id"
    let userIsFollowing ← decodeBoolField fields "user_is_following"
    let expandedUserIds ← decodeStringListField fields "expanded_user_ids"
    let accessLevels ← decodeJObjField fields "access_levels"
    some { id := id, type := ty, title := title, created := created, updated := updated,
           authorId := authorId, html := html, link := link, accessLevel := accessLevel,
           isTemplate := isTemplate, sharedFolderId := sharedFolderId, threadId := threadId,
           userIsFollowing := userIsFollowing, expandedUserIds := expandedUserIds,
           accessLevels := accessLevels }
  | _ => none

/-- Go `json.Unmarshal` into a `RecentThreadData` (the sideband-HTML
wrapper shape). -/
def decodeRecentThreadData : JValue → Option RecentThreadData
  | JValue.null => some {}
  | JValue.obj fields => do
    let thread ← match jLookup fields "thread" with
      | none => some ({} : Document)
      | some v => decodeDocument v
    let userIds ← decodeStringListField fields "user_ids"
    let sharedFolderIds ← decodeStringListField fields "shared_folder_ids"
    let expandedUserIds ← decodeStringListField fields "expanded_user_ids"
    let invitedUserEmails ← decodeStringListField fields "invited_user_emails"
    let accessLevels ← decodeStringMapMapField fields "access_levels"
    let html ← decodeStringField fields "html"
    some { thread := thread, userIds := userIds, sharedFolderIds := sharedFolderIds,
           expandedUserIds := expandedUserIds, invitedUserEmails := invitedUserEmails,
           accessLevels := accessLevels, html := html }
  | _ => none

/-- Go `json.Unmarshal` into a `RecentThreadsResponse`
(`map[string]RecentThreadData`), kept as an association list in JSON
order; the Go map's iteration order is arbitrary and is modelled by
quantifying over permutations of these entries. -/
def decodeRecentThreadsResponse : JValue → Option (List (String × RecentThreadData))
  | JValue.null => some []
  | JValue.obj fields => fields.mapM (fun p => (decodeRecentThreadData p.2).map (fun r => (p.1, r)))
  | _ => none

/-- Go `json.Unmarshal` into a `[]Document`. -/
def decodeDocList : JValue → Option (List Document)
  | JValue.null => some []
  | JValue.arr xs => xs.mapM decodeDocument
  | _ => none

/-- Go `json.Unmarshal` into one `SearchResponse`. -/
def decodeSearchResponse : JValue → Option SearchResponse
  | JValue.null => some {}
  | JValue.obj fields =>
    (match jLookup fields "thread" with
     | none => some ({} : Document)
     | some v => decodeDocument v).map (fun d => { thread := d })
  | _ => none

/-- Go `json.Unmarshal` into a `[]SearchResponse`. -/
def decodeSearchResponseList : JValue → Option (List SearchResponse)
  | JValue.null => some []
  | JValue.arr xs => xs.mapM decodeSearchResponse
  | _ => none

/-! ## Raw-body rendering

The client interpolates the raw response bytes into diagnostic error
messages (`string(respBody)`).  In this embedding the body arrives as a
parse tree, so `renderJson` reconstructs the raw text. -/

/-- The JSON text a `JValue` stands for (the raw response body). -/
def renderJson : JValue → String
  | JValue.null => "null"
  | JValue.bool b => if b then "true" else "false"
  | JValue.num n => formatInt n
  | JValue.str s => "\"" ++ s ++ "\""
  | JValue.arr xs =>
    "[" ++ String.intercalate "," (xs.attach.map (fun x => renderJson x.1)) ++ "]"
  | JValue.obj fs =>
    "\x7b" ++ String.intercalate ","
      (fs.attach.map (fun p => "\"" ++ p.1.1 ++ "\":" ++ renderJson p.1.2)) ++ "\x7d"
decreasing_by
  · have := List.sizeOf_lt_of_mem x.2
    simp only [JValue.arr.sizeOf_spec]
    omega
  · have h1 := List.sizeOf_lt_of_mem p.2
    have h2 : sizeOf p.1.2 < sizeOf p.1 := by
      obtain ⟨a, b⟩ := p.1
      simp only [Prod.mk.sizeOf_spec]
      omega
    simp only [JValue.obj.sizeOf_spec]
    omega

/-! ## Client operations (`pkg/quip/client.go`): body normalization

Each operation's HTTP exchange is out of scope here; these functions are
the pure part that turns a response body into the returned value, exactly
mirroring the source's cascade of `json.Unmarshal` attempts. -/

/-- `GetDocument`'s fallback branch: decode the body as a bare `Document`
(no id check); a decode failure is the terminal decode error. -/
def getDocumentFallback (body : JValue) : Except String Document :=
  match decodeDocument body with
  | some d => Except.ok d
  | none => Except.error "failed to decode response"

/-- `GetDocument`'s body normalization: try the sideband-HTML wrapper
shape first; accept it only when `thread.id` is non-empty, overwriting the
thread's html with the sideband html when the latter is non-empty;
otherwise fall back to the bare-`Document` decode. -/
def getDocumentNormalize (body : JValue) : Except String Document :=
  match decodeRecentThreadData body with
  | some r =>
    if r.thread.id ≠ "" then
      Except.ok (if r.html ≠ "" then { r.thread with html := r.html } else r.thread)
    else getDocumentFallback body
  | none => getDocumentFallback body

/-- `CreateDocument`'s body normalization: decode the sideband-HTML
wrapper shape and return its `thread` (no id check, no fallback). -/
def createDocumentNormalize (body : JValue) : Except String Document :=
  match decodeRecentThreadData body with
  | some r => Except.ok r.thread
  | none => Except.error "failed to decode response"

/-- `EditDocument`'s body normalization: the wrapper shape guarded by a
non-empty `thread.id`, else the bare-`Document` fallback. -/
def editDocumentNormalize (body : JValue) : Except String Document :=
  match decodeRecentThreadData body with
  | some r =>
    if r.thread.id ≠ "" then Except.ok r.thread
    else getDocumentFallback body
  | none => getDocumentFallback body

/-- `SearchDocuments`'s body normalization: decode a `[]SearchResponse`
and repackage the wrapped threads in order, with an empty users list. -/
def searchDocumentsNormalize (body : JValue) : Except String SearchResult :=
  match decodeSearchResponseList body with
  | some ws =>
    Except.ok { documents := ws.map (fun w => w.thread), users := [] }
  | none => Except.error "failed to decode response"

/-- The map branch of `GetRecentThreads` collects `threadData.Thread` for
the entries in the order the Go map range produces them. -/
def getRecentThreadsFromEntries (entries : List (String × RecentThreadData)) : List Document :=
  entries.map (fun e => e.2.thread)

/-- The terminal decode-error message of `GetRecentThreads`, which
interpolates the ENTIRE raw body. -/
def recentUnrecognizedMsg (body : JValue) : String :=
  "failed to decode response: unrecognized response format. Response body: " ++ renderJson body

/-- `GetRecentThreads`'s second and third cascade candidates: a bare
`[]Document`, then a `[]SearchResponse`; if both fail, the terminal
decode error carries the raw body. -/
def getRecentThreadsFallback (body : JValue) : Except String (List Document) :=
  match decodeDocList body with
  | some threads => Except.ok threads
  | none =>
    match decodeSearchResponseList body with
    | some srs => Except.ok (srs.map (fun w => w.thread))
    | none => Except.error (recentUnrecognizedMsg body)

/-- `GetRecentThreads`'s body normalization: the key-to-wrapper map shape
(accepted only when non-empty), then the fallback candidates. -/
def getRecentThreadsNormalize (body : JValue) : Except String (List Document) :=
  match decodeRecentThreadsResponse body with
  | some entries =>
    if entries.length > 0 then Except.ok (getRecentThreadsFromEntries entries)
    else getRecentThreadsFallback body
  | none => getRecentThreadsFallback body

/-! ## Transport classification (`makeRequest` / `makeFormRequest`) -/

/-- An HTTP response as seen after `httpClient.Do`. -/
structure HTTPResponse where
  status : Nat
  body : String

/-- The outcome classification of `makeRequest`: statuses at or above 400
become an API error carrying the numeric code and the verbatim body;
every other response is handed to the caller. -/
def makeRequestClassify (resp : HTTPResponse) : Except String String :=
  if 400 ≤ resp.status then
    Except.error ("API error " ++ formatInt resp.status ++ ": " ++ resp.body)
  else Except.ok resp.body

/-- The outcome classification of `makeFormRequest` (identical to
`makeRequestClassify` in the source). -/
def makeFormRequestClassify (resp : HTTPResponse) : Except String String :=
  if 400 ≤ resp.status then
    Except.error ("API error " ++ formatInt resp.status ++ ": " ++ resp.body)
  else Except.ok resp.body

/-! ## EditDocument form encoding -/

/-- The `location` form field computed from the logical operation name
(`client.go`, `EditDocument`). -/
def editLocation (operation : String) : String :=
  if operation = "REPLACE" ∨ operation = "" then "0"
  else if operation = "APPEND" then "0"
  else if operation = "PREPEND" then "1"
  else "0"

/-- The form data `EditDocument` sends to `/threads/edit-document`. -/
def editFormData (documentID content operation format : String) : List (String × String) :=
  [("thread_id", documentID), ("content", content),
   ("location", editLocation operation),
   ("format", if format ≠ "" then format else "markdown")]

/-! ## Server layer (`pkg/server/server.go`) -/

/-- `formatTimestamp`: zero is the sentinel "Unknown"; otherwise the
microsecond value is divided (Go truncating division) by 1000000 and
rendered in decimal. -/
def formatTimestamp (timestamp : Int) : String :=
  if timestamp = 0 then "Unknown"
  else formatInt (Int.tdiv timestamp 1000000)

/-- The text block the `get_user` tool handler builds from a `User`. -/
def getUserResponse (u : User) : String :=
  let response := "**" ++ u.name ++ "**\n\n"
    ++ "- **ID:** " ++ u.id ++ "\n"
    ++ "- **Email:** " ++ u.email ++ "\n"
    ++ "- **Profile URL:** " ++ u.url ++ "\n"
    ++ "- **Created:** " ++ formatTimestamp u.created ++ "\n"
    ++ "- **Updated:** " ++ formatTimestamp u.updated ++ "\n"
  if u.profilePic ≠ "" then
    response ++ "- **Profile Picture:** " ++ u.profilePic ++ "\n"
  else response

/-- A network call the delete handler can issue. -/
inductive NetCall where
  | fetch (id : String) : NetCall
  | delete (id : String) : NetCall
deriving DecidableEq

/-- A tool handler outcome (`mcp.NewToolResultText` / `NewToolResultError`). -/
inductive ToolResult where
  | text (s : String) : ToolResult
  | error (s : String) : ToolResult

/-- An ASCII single quote, kept out of string literals. -/
def squote : String := String.singleton (Char.ofNat 39)

/-- The delete handler's validation-error message for a wrong
confirmation string. -/
def deleteCancelledMsg : String :=
  "Deletion cancelled. To delete the document, you must set confirm="
    ++ squote ++ "DELETE" ++ squote

/-- The delete handler's success text. -/
def deleteSuccessMsg (doc : Document) : String :=
  String.singleton (Char.ofNat 0x1F5D1) ++ String.singleton (Char.ofNat 0xFE0F)
    ++ " **Document deleted successfully!**\n\n"
    ++ "- **Deleted Document:** " ++ doc.title ++ "\n"
    ++ "- **ID:** " ++ doc.id ++ "\n"
    ++ "- **Status:** " ++ "✅" ++ " Permanently deleted\n"

/-- The `delete_document` tool handler: confirmation gate, then fetch,
then delete.  The two network calls are abstracted by their results
(`fetchResult`, `deleteResult`); the second component of the return value
is the trace of network calls actually issued, in order. -/
def deleteDocumentHandler (documentID confirm : String)
    (fetchResult : Except String Document) (deleteResult : Except String Unit) :
    ToolResult × List NetCall :=
  if confirm ≠ "DELETE" then
    (ToolResult.error deleteCancelledMsg, [])
  else
    match fetchResult with
    | Except.error e =>
      (ToolResult.error ("Failed to get document before deletion: " ++ e),
       [NetCall.fetch documentID])
    | Except.ok doc =>
      match deleteResult with
      | Except.error e =>
        (ToolResult.error ("Failed to delete document: " ++ e),
         [NetCall.fetch documentID, NetCall.delete documentID])
      | Except.ok _ =>
        (ToolResult.text (deleteSuccessMsg doc),
         [NetCall.fetch documentID, NetCall.delete documentID])

/-! ## Concrete response-body fixtures -/

/-- A body whose only cascade candidate decodes with `thread.id == ""`. -/
def bodyEmptyThread : JValue :=
  JValue.obj [("thread", JValue.obj [("id", JValue.str "")])]

/-- A sideband-HTML wrapper body with non-empty `thread.id`. -/
def bodySideband : JValue :=
  JValue.obj
    [("thread", JValue.obj
        [("id", JValue.str "D1"), ("title", JValue.str "T1"), ("html", JValue.str "inner")]),
     ("html", JValue.str "side")]

/-- The decode of `bodySideband` as a `RecentThreadData`. -/
def rtdSideband : RecentThreadData :=
  { thread := { id := "D1", title := "T1", html := "inner" }, html := "side" }

/-- A search response body of two wrapper entries. -/
def bodySearch : JValue :=
  JValue.arr
    [JValue.obj [("thread", JValue.obj [("id", JValue.str "A")])],
     JValue.obj [("thread", JValue.obj [("id", JValue.str "B")])]]

/-- The decode of `bodySearch` as a `[]SearchResponse`. -/
def wsSearch : List SearchResponse :=
  [{ thread := { id := "A" } }, { thread := { id := "B" } }]

/-- A recent-threads body in the key-to-wrapper map shape, two entries. -/
def bodyRecentMap : JValue :=
  JValue.obj
    [("k1", JValue.obj [("thread", JValue.obj [("id", JValue.str "A")])]),
     ("k2", JValue.obj [("thread", JValue.obj [("id", JValue.str "B")])])]

/-- The decode of `bodyRecentMap`, in JSON order. -/
def entriesRecent : List (String × RecentThreadData) :=
  [("k1", { thread := { id := "A" } }), ("k2", { thread := { id := "B" } })]

/-- The same entries in the opposite iteration order. -/
def orderRecent : List (String × RecentThreadData) :=
  [("k2", { thread := { id := "B" } }), ("k1", { thread := { id := "A" } })]

/-! ## Helper lemmas about the decimal renderer -/

/-- Digit characters have code points at most 57 (the code of the
character for 9). -/
theorem digitChar_toNat_le (k : Nat) (h : k < 10) : (digitChar k).toNat ≤ 57 := by
  interval_cases k <;> decide

/-- With positive fuel, the digit list is non-empty and starts with a
digit character. -/
theorem natDigitsAux_head (fuel n : Nat) :
    ∃ c cs, natDigitsAux (fuel + 1) n = c :: cs ∧ c.toNat ≤ 57 := by
  induction fuel generalizing n with
  | zero =>
    by_cases h : n < 10
    · exact ⟨digitChar n, [], by simp [natDigitsAux, h], digitChar_toNat_le n h⟩
    · refine ⟨digitChar (n % 10), [], ?_, digitChar_toNat_le _ (Nat.mod_lt _ (by omega))⟩
      simp [natDigitsAux, h]
  | succ fuel ih =>
    by_cases h : n < 10
    · exact ⟨digitChar n, [], by simp [natDigitsAux, h], digitChar_toNat_le n h⟩
    · obtain ⟨c, cs, hEq, hc⟩ := ih (n / 10)
      refine ⟨c, cs ++ [digitChar (n % 10)], ?_, hc⟩
      rw [natDigitsAux]
      simp [h, hEq]

/-- The decimal rendering of an integer is never the sentinel text
"Unknown": it starts with a minus sign or a digit. -/
theorem formatInt_ne_unknown (x : Int) : formatInt x ≠ "Unknown" := by
  have hU : ("Unknown" : String).data = ['U', 'n', 'k', 'n', 'o', 'w', 'n'] := by decide
  unfold formatInt
  split
  · intro h
    have hd := congrArg String.data h
    rw [hU] at hd
    have : '-' = 'U' := by
      have := List.head_eq_of_cons_eq hd
      exact this
    exact absurd (congrArg Char.toNat this) (by decide)
  · intro h
    obtain ⟨c, cs, hEq, hc⟩ := natDigitsAux_head x.toNat x.toNat
    have hd := congrArg String.data h
    rw [hU] at hd
    unfold natDigits at hd
    rw [hEq] at hd
    have : c = 'U' := List.head_eq_of_cons_eq hd
    rw [this] at hc
    exact absurd hc (by decide)

/-- C8: `formatTimestamp` maps the microsecond value 1640995200000000 to
"1640995200", maps 0 to the sentinel "Unknown", and renders every
non-zero timestamp as the truncated quotient by 1000000, never colliding
with the sentinel. -/
theorem formatTimestamp_spec :
    formatTimestamp 1640995200000000 = "1640995200" ∧
    formatTimestamp 0 = "Unknown" ∧
    ∀ t : Int, t ≠ 0 →
      formatTimestamp t = formatInt (Int.tdiv t 1000000) ∧
      formatTimestamp t ≠ "Unknown" := by
  refine ⟨by decide, rfl, ?_⟩
  intro t ht
  refine ⟨by simp [formatTimestamp, ht], ?_⟩
  simp only [formatTimestamp, if_neg ht]
  exact formatInt_ne_unknown _

/-- Witness for C8 at the non-zero timestamp 5. -/
theorem formatTimestamp_spec_witness :
    (5 : Int) ≠ 0 ∧
    (formatTimestamp 5 = formatInt (Int.tdiv 5 1000000) ∧ formatTimestamp 5 ≠ "Unknown") :=
  ⟨by decide, formatTimestamp_spec.2.2 5 (by decide)⟩

/-- C9: the `get_user` tool renders User created/updated timestamps with
the same microsecond-to-second divisor used for Documents: for non-zero
values the rendered figure is the truncated quotient by 1000000, even
though User timestamps arrive in seconds. -/
theorem getUserResponse_divides_by_million (u : User)
    (hc : u.created ≠ 0) (hu : u.updated ≠ 0) :
    (∃ pre post, getUserResponse u =
      pre ++ ("- **Created:** " ++ formatInt (Int.tdiv u.created 1000000) ++ "\n") ++ post) ∧
    (∃ pre post, getUserResponse u =
      pre ++ ("- **Updated:** " ++ formatInt (Int.tdiv u.updated 1000000) ++ "\n") ++ post) := by
  have hfc : formatTimestamp u.created = formatInt (Int.tdiv u.created 1000000) := by
    simp [formatTimestamp, hc]
  have hfu : formatTimestamp u.updated = formatInt (Int.tdiv u.updated 1000000) := by
    simp [formatTimestamp, hu]
  constructor
  · refine ⟨"**" ++ u.name ++ "**\n\n" ++ "- **ID:** " ++ u.id ++ "\n"
      ++ "- **Email:** " ++ u.email ++ "\n" ++ "- **Profile URL:** " ++ u.url ++ "\n",
      "- **Updated:** " ++ formatTimestamp u.updated ++ "\n"
        ++ (if u.profilePic ≠ "" then "- **Profile Picture:** " ++ u.profilePic ++ "\n" else ""), ?_⟩
    simp only [getUserResponse, hfc]
    split <;> simp only [String.append_assoc, String.append_empty]
  · refine ⟨"**" ++ u.name ++ "**\n\n" ++ "- **ID:** " ++ u.id ++ "\n"
      ++ "- **Email:** " ++ u.email ++ "\n" ++ "- **Profile URL:** " ++ u.url ++ "\n"
      ++ "- **Created:** " ++ formatTimestamp u.created ++ "\n",
      (if u.profilePic ≠ "" then "- **Profile Picture:** " ++ u.profilePic ++ "\n" else ""), ?_⟩
    simp only [getUserResponse, hfu]
    split <;> simp only [String.append_assoc, String.append_empty]

/-- Witness for C9 at a seconds-valued user timestamp. -/
theorem getUserResponse_divides_by_million_witness :
    ((1640995200 : Int) ≠ 0 ∧ (1234567 : Int) ≠ 0) ∧
    ((∃ pre post, getUserResponse { name := "N", created := 1640995200, updated := 1234567 } =
      pre ++ ("- **Created:** " ++ formatInt (Int.tdiv 1640995200 1000000) ++ "\n") ++ post) ∧
     (∃ pre post, getUserResponse { name := "N", created := 1640995200, updated := 1234567 } =
      pre ++ ("- **Updated:** " ++ formatInt (Int.tdiv 1234567 1000000) ++ "\n") ++ post)) :=
  ⟨⟨by decide, by decide⟩,
   getUserResponse_divides_by_million
     { name := "N", created := 1640995200, updated := 1234567 } (by decide) (by decide)⟩

/-- C6: `EditDocument` maps the logical operation name to the `location`
form field: REPLACE and APPEND both yield "0", PREPEND yields "1", and
every other operation string yields "0". -/
theorem editDocument_location_mapping (documentID content format : String) :
    (editFormData documentID content "REPLACE" format).lookup "location" = some "0" ∧
    (editFormData documentID content "APPEND" format).lookup "location" = some "0" ∧
    (editFormData documentID content "PREPEND" format).lookup "location" = some "1" ∧
    ∀ op : String, op ≠ "APPEND" → op ≠ "PREPEND" →
      (editFormData documentID content op format).lookup "location" = some "0" := by
  refine ⟨by simp [editFormData, editLocation, List.lookup], by simp [editFormData, editLocation, List.lookup],
    by simp [editFormData, editLocation, List.lookup], ?_⟩
  intro op h1 h2
  have hloc : editLocation op = "0" := by
    unfold editLocation
    split_ifs <;> simp_all
  simp [editFormData, List.lookup, hloc]

/-- Witness for C6 at an unrecognized operation name. -/
theorem editDocument_location_mapping_witness :
    ("DESTROY" : String) ≠ "APPEND" ∧ ("DESTROY" : String) ≠ "PREPEND" ∧
    (editFormData "D1" "c" "DESTROY" "html").lookup "location" = some "0" :=
  ⟨by decide, by decide,
   (editDocument_location_mapping "D1" "c" "html").2.2.2 "DESTROY" (by decide) (by decide)⟩

/-- C2: the `delete_document` tool rejects any confirmation string other
than the exact literal "DELETE" with a validation error before any
network call; with the exact literal it fetches first, and a failed fetch
means the delete call is never issued. -/
theorem deleteDocument_confirmation_guard (documentID confirm : String)
    (fetchResult : Except String Document) (deleteResult : Except String Unit) :
    (confirm ≠ "DELETE" →
      deleteDocumentHandler documentID confirm fetchResult deleteResult
        = (ToolResult.error deleteCancelledMsg, [])) ∧
    (confirm = "DELETE" →
      ∃ rest, (deleteDocumentHandler documentID confirm fetchResult deleteResult).2
        = NetCall.fetch documentID :: rest) ∧
    (∀ e, fetchResult = Except.error e →
      NetCall.delete documentID ∉
        (deleteDocumentHandler documentID confirm fetchResult deleteResult).2 ∧
      ∃ m, (deleteDocumentHandler documentID confirm fetchResult deleteResult).1
        = ToolResult.error m) := by
  refine ⟨fun h => by simp [deleteDocumentHandler, h], ?_, ?_⟩
  · intro h
    subst h
    simp only [deleteDocumentHandler, ne_eq, not_true_eq_false, if_false]
    cases fetchResult with
    | error e => exact ⟨[], rfl⟩
    | ok doc => cases deleteResult with
      | error e => exact ⟨[NetCall.delete documentID], rfl⟩
      | ok _ => exact ⟨[NetCall.delete documentID], rfl⟩
  · intro e he
    subst he
    by_cases h : confirm = "DELETE"
    · subst h
      simp [deleteDocumentHandler]
    · simp [deleteDocumentHandler, h]

/-- Witness for C2: a lower-case confirmation is rejected with no network
calls, and with the exact literal a failed fetch never leads to a delete
call. -/
theorem deleteDocument_confirmation_guard_witness :
    ("delete" : String) ≠ "DELETE" ∧
    deleteDocumentHandler "D1" "delete" (Except.error "boom") (Except.ok ())
      = (ToolResult.error deleteCancelledMsg, []) ∧
    (NetCall.delete "D1" ∉
      (deleteDocumentHandler "D1" "DELETE" (Except.error "boom") (Except.ok ())).2 ∧
     ∃ m, (deleteDocumentHandler "D1" "DELETE" (Except.error "boom") (Except.ok ())).1
        = ToolResult.error m) :=
  ⟨by decide,
   (deleteDocument_confirmation_guard "D1" "delete" (Except.error "boom") (Except.ok ())).1
     (by decide),
   (deleteDocument_confirmation_guard "D1" "DELETE" (Except.error "boom") (Except.ok ())).2.2
     "boom" rfl⟩

/-- C3 counterexample: a 304 response is not a 2xx status, yet both send
operations hand its body to the caller instead of returning an API
error — the cut-off in the source is status 400, not the 2xx class. -/
theorem makeRequest_non2xx_counterexample :
    ¬ (200 ≤ 304 ∧ 304 < 300) ∧
    makeRequestClassify { status := 304, body := "not modified" } = Except.ok "not modified" ∧
    makeFormRequestClassify { status := 304, body := "not modified" } = Except.ok "not modified" :=
  ⟨by omega, rfl, rfl⟩

/-- C3 amended: `makeRequest` / `makeFormRequest` classify the outcome by
the threshold 400: every status at or above 400 becomes an API error
whose message carries the numeric code and the verbatim body, and every
status below 400 (3xx included) hands the raw body to the caller; a 401
with body containing "Invalid token" yields the message with both
literals. -/
theorem makeRequest_status_classification (resp : HTTPResponse) :
    (400 ≤ resp.status →
      makeRequestClassify resp
        = Except.error ("API error " ++ formatInt resp.status ++ ": " ++ resp.body) ∧
      makeFormRequestClassify resp
        = Except.error ("API error " ++ formatInt resp.status ++ ": " ++ resp.body)) ∧
    (resp.status < 400 →
      makeRequestClassify resp = Except.ok resp.body ∧
      makeFormRequestClassify resp = Except.ok resp.body) ∧
    makeRequestClassify { status := 401, body := "\x7b\"error\":\"Invalid token\"\x7d" }
      = Except.error ("API error 401: " ++ "\x7b\"error\":\"Invalid token\"\x7d") := by
  refine ⟨fun h => ?_, fun h => ?_, rfl⟩
  · constructor <;> simp [makeRequestClassify, makeFormRequestClassify, h]
  · constructor <;> simp [makeRequestClassify, makeFormRequestClassify, Nat.not_le.mpr h]

/-- Witness for C3 amended at a 500 and a 204 response. -/
theorem makeRequest_status_classification_witness :
    (400 ≤ 500 ∧
      (makeRequestClassify { status := 500, body := "oops" }
        = Except.error ("API error " ++ formatInt (500 : Nat) ++ ": " ++ "oops") ∧
       makeFormRequestClassify { status := 500, body := "oops" }
        = Except.error ("API error " ++ formatInt (500 : Nat) ++ ": " ++ "oops"))) ∧
    (204 < 400 ∧
      (makeRequestClassify { status := 204, body := "" } = Except.ok "" ∧
       makeFormRequestClassify { status := 204, body := "" } = Except.ok "")) :=
  ⟨⟨by decide, (makeRequest_status_classification { status := 500, body := "oops" }).1 (by decide)⟩,
   ⟨by decide, (makeRequest_status_classification { status := 204, body := "" }).2.1 (by decide)⟩⟩

/-- C1 counterexample: on the body in which every cascade candidate
yields `thread.id == ""`, both `GetDocument` and `CreateDocument` return
a zero-value Document with empty id instead of a decode error. -/
theorem emptyThreadId_returns_document :
    getDocumentNormalize bodyEmptyThread = Except.ok ({} : Document) ∧
    createDocumentNormalize bodyEmptyThread = Except.ok ({} : Document) ∧
    ({} : Document).id = "" :=
  ⟨rfl, rfl, rfl⟩

/-- C1 amended: `GetDocument` rejects the wrapper candidate when its
`thread.id` is empty and proceeds to the bare-Document fallback, but the
fallback performs no id check and `CreateDocument` performs none at all,
so on the all-candidates-empty body both return an empty-id Document
rather than a decode error. -/
theorem document_normalization_empty_id (body : JValue) (r : RecentThreadData)
    (hdec : decodeRecentThreadData body = some r) (hid : r.thread.id = "") :
    getDocumentNormalize body = getDocumentFallback body ∧
    createDocumentNormalize body = Except.ok r.thread ∧
    getDocumentNormalize bodyEmptyThread = Except.ok ({} : Document) ∧
    createDocumentNormalize bodyEmptyThread = Except.ok ({} : Document) := by
  refine ⟨?_, ?_, rfl, rfl⟩
  · simp [getDocumentNormalize, hdec, hid]
  · simp [createDocumentNormalize, hdec]

/-- Witness for C1 amended at the all-candidates-empty fixture. -/
theorem document_normalization_empty_id_witness :
    getDocumentNormalize bodyEmptyThread = getDocumentFallback bodyEmptyThread ∧
    createDocumentNormalize bodyEmptyThread = Except.ok ({} : RecentThreadData).thread :=
  ⟨(document_normalization_empty_id bodyEmptyThread {} rfl rfl).1,
   (document_normalization_empty_id bodyEmptyThread {} rfl rfl).2.1⟩

/-- C5: when the body decodes as the sideband-HTML wrapper with non-empty
`thread.id`, `GetDocument` returns the wrapped thread with matching id
and title, its html overwritten by a non-empty sideband html and left
unchanged by an empty one. -/
theorem getDocument_sideband_html (body : JValue) (r : RecentThreadData)
    (hdec : decodeRecentThreadData body = some r) (hid : r.thread.id ≠ "") :
    ∃ d, getDocumentNormalize body = Except.ok d ∧
      d.id = r.thread.id ∧ d.title = r.thread.title ∧
      d.html = (if r.html ≠ "" then r.html else r.thread.html) := by
  refine ⟨if r.html ≠ "" then { r.thread with html := r.html } else r.thread, ?_, ?_, ?_, ?_⟩
  · simp [getDocumentNormalize, hdec, hid]
  · split <;> rfl
  · split <;> rfl
  · split <;> rfl

/-- Witness for C5 at the sideband fixture. -/
theorem getDocument_sideband_html_witness :
    ∃ d, getDocumentNormalize bodySideband = Except.ok d ∧
      d.id = rtdSideband.thread.id ∧ d.title = rtdSideband.thread.title ∧
      d.html = (if rtdSideband.html ≠ "" then rtdSideband.html else rtdSideband.thread.html) :=
  getDocument_sideband_html bodySideband rtdSideband rfl (by decide)

/-- C7: on a body of N wrapper entries, `SearchDocuments` returns exactly
the wrapped Documents in order, with an empty users list. -/
theorem searchDocuments_order (body : JValue) (ws : List SearchResponse)
    (hdec : decodeSearchResponseList body = some ws) :
    searchDocumentsNormalize body
      = Except.ok { documents := ws.map (fun w => w.thread), users := [], nextCursor := "" } ∧
    (ws.map (fun w => w.thread)).length = ws.length ∧
    ∀ i (h : i < ws.length),
      (ws.map (fun w => w.thread)).get ⟨i, by simpa⟩ = (ws.get ⟨i, h⟩).thread := by
  refine ⟨?_, by simp, ?_⟩
  · simp [searchDocumentsNormalize, hdec]
  · intro i h
    simp

/-- Witness for C7 at the two-entry search fixture. -/
theorem searchDocuments_order_witness :
    searchDocumentsNormalize bodySearch
      = Except.ok { documents := wsSearch.map (fun w => w.thread), users := [], nextCursor := "" } ∧
    (wsSearch.map (fun w => w.thread)).length = wsSearch.length :=
  ⟨(searchDocuments_order bodySearch wsSearch rfl).1,
   (searchDocuments_order bodySearch wsSearch rfl).2.1⟩

/-- C4 counterexample: no constant bounds the decode-error message of
`GetRecentThreads` over all bodies — the message embeds the entire raw
body, so its length grows without bound. -/
theorem getRecentThreads_error_unbounded :
    ¬ ∃ C : Nat, ∀ (body : JValue) (msg : String),
        getRecentThreadsNormalize body = Except.error msg → msg.length ≤ C := by
  rintro ⟨C, hC⟩
  have hbody : getRecentThreadsNormalize (JValue.str (String.mk (List.replicate (C + 1) 'x')))
      = Except.error (recentUnrecognizedMsg (JValue.str (String.mk (List.replicate (C + 1) 'x')))) := rfl
  have hlen := hC _ _ hbody
  have hr : renderJson (JValue.str (String.mk (List.replicate (C + 1) 'x')))
      = "\"" ++ String.mk (List.replicate (C + 1) 'x') ++ "\"" := by
    rw [renderJson]
  have hmk : (String.mk (List.replicate (C + 1) 'x')).length = C + 1 := by
    simp [String.length]
  rw [recentUnrecognizedMsg, hr] at hlen
  rw [String.length_append, String.length_append, String.length_append, hmk] at hlen
  omega

/-- C4 amended: when all three cascade candidates of `GetRecentThreads`
fail, the decode error carries the ENTIRE raw body, not a bounded
prefix. -/
theorem getRecentThreads_error_carries_body (body : JValue)
    (hmap : decodeRecentThreadsResponse body = none ∨ decodeRecentThreadsResponse body = some [])
    (hlist : decodeDocList body = none) (hsearch : decodeSearchResponseList body = none) :
    getRecentThreadsNormalize body = Except.error (recentUnrecognizedMsg body) ∧
    (renderJson body).length ≤ (recentUnrecognizedMsg body).length := by
  constructor
  · rcases hmap with h | h <;>
      simp [getRecentThreadsNormalize, getRecentThreadsFallback, h, hlist, hsearch]
  · rw [recentUnrecognizedMsg, String.length_append]
    omega

/-- Witness for C4 amended at a plain-string body. -/
theorem getRecentThreads_error_carries_body_witness :
    getRecentThreadsNormalize (JValue.str "oops")
      = Except.error (recentUnrecognizedMsg (JValue.str "oops")) ∧
    (renderJson (JValue.str "oops")).length ≤ (recentUnrecognizedMsg (JValue.str "oops")).length :=
  getRecentThreads_error_carries_body (JValue.str "oops") (Or.inl rfl) rfl rfl

/-- C10: on a non-empty map-shaped body, `GetRecentThreads` returns
exactly the thread of each entry once — for every iteration order of the
Go map, the output is a permutation of the wrapped threads — and the
sequence order is not determined, since different iteration orders give
different sequences. -/
theorem getRecentThreads_map_multiset (body : JValue)
    (entries order : List (String × RecentThreadData))
    (hdec : decodeRecentThreadsResponse body = some entries)
    (hne : entries ≠ []) (hperm : entries.Perm order) :
    getRecentThreadsNormalize body = Except.ok (getRecentThreadsFromEntries entries) ∧
    (getRecentThreadsFromEntries order).Perm (entries.map (fun e => e.2.thread)) ∧
    getRecentThreadsFromEntries entriesRecent ≠ getRecentThreadsFromEntries orderRecent := by
  refine ⟨?_, ?_, ?_⟩
  · have hlen : entries.length > 0 := by
      cases entries with
      | nil => exact absurd rfl hne
      | cons a l => simp
    simp [getRecentThreadsNormalize, hdec, hlen]
  · exact ((hperm.map (fun e => e.2.thread)).symm)
  · intro h
    have h1 := congrArg (fun l => (List.headI l).id) h
    simp [getRecentThreadsFromEntries, entriesRecent, orderRecent] at h1

/-- Witness for C10 at the two-entry map fixture with the opposite
iteration order. -/
theorem getRecentThreads_map_multiset_witness :
    getRecentThreadsNormalize bodyRecentMap = Except.ok (getRecentThreadsFromEntries entriesRecent) ∧
    (getRecentThreadsFromEntries orderRecent).Perm (entriesRecent.map (fun e => e.2.thread)) :=
  ⟨(getRecentThreads_map_multiset bodyRecentMap entriesRecent orderRecent rfl (by simp [entriesRecent])
      (List.Perm.swap _ _ _)).1,
   (getRecentThreads_map_multiset bodyRecentMap entriesRecent orderRecent rfl (by simp [entriesRecent])
      (List.Perm.swap _ _ _)).2.1⟩

end QuipMCP
